import Mathlib

/-!
Verification development for the OpenNebula salt-cloud driver
(`salt/cloud/clouds/opennebula.py`).

The module is a thin XML-RPC adapter.  We shallowly embed its data model and
the operations the claims concern:

* parsed XML elements (`XmlElem`/`XmlForest`, mirroring `lxml.etree` elements
  after `etree.XML` has parsed the RPC response string),
* the recursive flattener `_xml_to_dict`,
* the resource listers (`_list_images`, `_list_nodes`, ...), which are
  modelled as functions of the parsed pool response (the XML-RPC transport is
  abstracted away: each lister receives the parsed root element its single
  pool-info call would have returned),
* the bounded-retry lookup helpers `_get_node` / `_get_template`,
* the action dispatchers `destroy`, `image_update`, `template_update`,
  `secgroup_update`, the id getters, and the VM provisioning flow `create`.

Python exceptions are modelled with `Except Err`; Python `None` and lists
occurring as dictionary values are modelled by extra `Val` constructors.
Every RPC call, fired event and bootstrap handoff is recorded in a `List
Call` trace so that theorems can speak about which calls were issued.
-/

namespace Opennebula

/-- The Python exceptions that the modelled code can raise. -/
inductive Err where
  | systemExit (msg : String)          -- SaltCloudSystemExit
  | configError (msg : String)         -- SaltCloudConfigError
  | notFound (msg : String)            -- SaltCloudNotFound
  | executionTimeout (msg : String)    -- SaltCloudExecutionTimeout
  | executionFailure (msg : String)    -- SaltCloudExecutionFailure
  | keyError                           -- KeyError
  | attributeError                     -- AttributeError (None.text, None.find)
  | valueError                         -- ValueError (int() on a non-numeral)
  | typeError                          -- TypeError (indexing a non-container)
  | indexError                         -- IndexError ([0] on an empty sequence)
  | ioError                            -- IOError (fopen on a missing file)
deriving DecidableEq, Repr

/-- Python `str(exc)` for the exceptions above (only the message-carrying
exceptions are ever stringified by the modelled code). -/
def errStr : Err → String
  | .systemExit m => m
  | .configError m => m
  | .notFound m => m
  | .executionTimeout m => m
  | .executionFailure m => m
  | .keyError => "KeyError"
  | .attributeError => "AttributeError"
  | .valueError => "ValueError"
  | .typeError => "TypeError"
  | .indexError => "IndexError"
  | .ioError => "IOError"

/-- Python values appearing in the driver's result dictionaries: strings,
nested string-keyed dicts (kept as insertion-ordered association lists),
lists, and `None`. -/
inductive Val where
  | str (s : String)
  | dict (d : List (String × Val))
  | list (xs : List Val)
  | none
deriving Repr

mutual
/-- A parsed XML element (tag, text, children).  `text` is `Option.none`
exactly when the element's `.text` is Python `None`.  The mutual shape
(rather than `List XmlElem` children) keeps all recursive functions
structurally recursive, hence kernel-reducible. -/
inductive XmlElem where
  | mk (tag : String) (text : Option String) (children : XmlForest)
deriving Repr

/-- A forest of sibling XML elements, in document order. -/
inductive XmlForest where
  | nil
  | cons (head : XmlElem) (tail : XmlForest)
deriving Repr
end

def XmlElem.tag : XmlElem → String
  | .mk t _ _ => t

def XmlElem.text : XmlElem → Option String
  | .mk _ tx _ => tx

def XmlElem.children : XmlElem → XmlForest
  | .mk _ _ cs => cs

def XmlForest.ofList : List XmlElem → XmlForest
  | [] => .nil
  | x :: xs => .cons x (XmlForest.ofList xs)

def XmlForest.toList : XmlForest → List XmlElem
  | .nil => []
  | .cons x xs => x :: XmlForest.toList xs

/-- Induction on a forest's spine (the mutual recursor specialised to a
trivial element motive). -/
def XmlForest.spineRec {P : XmlForest → Prop} (h0 : P .nil)
    (hc : ∀ x xs, P xs → P (.cons x xs)) : ∀ f, P f :=
  fun f => @XmlForest.rec (fun _ => True) P
    (fun _ _ _ _ => trivial) h0 (fun x xs _ ih => hc x xs ih) f

/-- A forest of `n` copies of the same element (sibling duplicates). -/
def replicateForest : Nat → XmlElem → XmlForest
  | 0, _ => .nil
  | n + 1, x => .cons x (replicateForest n x)

/-- `element.find(tag)`: the first child with the given tag, if any. -/
def findTag (tg : String) : XmlForest → Option XmlElem
  | .nil => Option.none
  | .cons x xs => if x.tag = tg then some x else findTag tg xs

/-- `element.findall(tag)`: all children with the given tag, in order. -/
def findAll (tg : String) : XmlForest → List XmlElem
  | .nil => []
  | .cons x xs => if x.tag = tg then x :: findAll tg xs else findAll tg xs

/-- `element.find(tag).text`: `AttributeError` when the child is missing
(Python calls `.text` on `None`); otherwise the child's text, which may
itself be Python `None`. -/
def findTextO (x : XmlElem) (tg : String) : Except Err (Option String) :=
  match findTag tg x.children with
  | Option.none => .error .attributeError
  | some e => .ok e.text

/-- Wrap an optional text as a Python value (`None` when absent). -/
def valOfOpt : Option String → Val
  | some s => .str s
  | Option.none => .none

/-- Python `str.lower()`, restricted to its ASCII action (the tags in play
are ASCII).  `String.toLower` itself is defined by well-founded recursion in
core and does not reduce in the kernel, so we map over the character list. -/
def pyLower (s : String) : String := String.mk (s.data.map Char.toLower)

/-- The suffixing loop inside `_xml_to_dict`:
`idx = 1; while key in dicts: key += str(idx); idx += 1`.
`fuel` bounds the iteration count; the callers pass `dicts.length + 1`,
which is always enough (see `uniqueKey_not_mem`): each round the candidate
key strictly grows, so at most `dicts.length` rounds can collide. -/
def uniqueKey (keys : List String) : String → Nat → Nat → String
  | key, _, 0 => key
  | key, idx, fuel + 1 =>
      if key ∈ keys then uniqueKey keys (key ++ Nat.repr idx) (idx + 1) fuel
      else key

mutual
/-- `_xml_to_dict(xml)`: flatten one element into an insertion-ordered
dictionary.  For each child: candidate key = lower-cased tag, made unique by
the suffixing loop; store the child's text when present, otherwise recurse. -/
def _xml_to_dict : XmlElem → List (String × Val)
  | .mk _ _ children => _xml_to_dict_go children []

/-- The `for item in xml` loop of `_xml_to_dict`, carrying the dictionary
built so far. -/
def _xml_to_dict_go : XmlForest → List (String × Val) → List (String × Val)
  | .nil, dicts => dicts
  | .cons item rest, dicts =>
      let key := uniqueKey (dicts.map Prod.fst) (pyLower item.tag) 1 (dicts.length + 1)
      match item.text with
      | some t => _xml_to_dict_go rest (dicts ++ [(key, Val.str t)])
      | Option.none => _xml_to_dict_go rest (dicts ++ [(key, Val.dict (_xml_to_dict item))])
end

/-! ## Python value helpers -/

/-- A single ASCII apostrophe, used for Python `repr` of strings. -/
def squote : String := String.mk [Char.ofNat 39]

/-- Python `'{0!r}'.format(s)` for a string: the string wrapped in quotes. -/
def pyRepr (s : String) : String := squote ++ s ++ squote

/-- Python `str(x)` for an optional configuration string
(`str(None) = "None"`). -/
def pyStr : Option String → String
  | Option.none => "None"
  | some s => s

/-- Python `str(v)`/`'{0}'.format(v)` for a dictionary value.  Only the
string and `None` cases are ever exercised by the theorems; the container
cases stand in for Python's container `repr`, which is not modelled. -/
def pyStrOfVal : Val → String
  | .str s => s
  | .none => "None"
  | .dict _ => "\x7b...\x7d"
  | .list _ => "[...]"

/-- Accumulate a decimal numeral; any non-digit character fails. -/
def parseDigitsAux : List Char → Nat → Option Nat
  | [], acc => some acc
  | c :: cs, acc =>
      if c.isDigit then parseDigitsAux cs (acc * 10 + (c.toNat - 48))
      else Option.none

/-- A non-empty all-digit character list, as a number. -/
def parseDigits : List Char → Option Nat
  | [] => Option.none
  | cs => parseDigitsAux cs 0

/-- A decimal numeral with an optional leading minus sign. -/
def pyIntChars : List Char → Option Int
  | '-' :: cs => (parseDigits cs).map (fun n => -(n : Int))
  | cs => (parseDigits cs).map (fun n => (n : Int))

/-- Python `int(s)` on a string: the parsed integer, or `ValueError`.
(Defined on the character list so that it evaluates in the kernel;
`String.toInt?` does not.) -/
def pyInt (s : String) : Except Err Int :=
  match pyIntChars s.data with
  | some n => .ok n
  | Option.none => .error .valueError

/-- Python `int(v)` on a dictionary value: only strings (and not, e.g.,
nested dictionaries) convert. -/
def pyIntOfVal : Val → Except Err Int
  | .str s => pyInt s
  | _ => .error .typeError

/-- Python truthiness of an optional string argument
(`None` and `""` are falsy). -/
def truthy : Option String → Bool
  | Option.none => false
  | some s => s ≠ ""

/-- Ordered-dictionary lookup (string keys): first binding wins. -/
def lookupStr {α : Type} : List (String × α) → String → Option α
  | [], _ => Option.none
  | (k, v) :: rest, key => if k = key then some v else lookupStr rest key

/-- Ordered-dictionary lookup for the listers' pools, whose keys are the
elements' `NAME` texts and may be Python `None`. -/
def lookupO {α : Type} : List (Option String × α) → Option String → Option α
  | [], _ => Option.none
  | (k, v) :: rest, key => if k = key then some v else lookupO rest key

/-- Python `d[k] = v` on an insertion-ordered dictionary: replace in place
when the key is present, append otherwise. -/
def pySetO {α : Type} : List (Option String × α) → Option String → α → List (Option String × α)
  | [], k, v => [(k, v)]
  | (k', v') :: rest, k, v =>
      if k' = k then (k, v) :: rest else (k', v') :: pySetO rest k v

/-- Python `d[key]` on a flattened record value: `KeyError` when absent,
`TypeError` when the value is not a dictionary. -/
def getItem : Val → String → Except Err Val
  | .dict d, key =>
      match lookupStr d key with
      | some v => .ok v
      | Option.none => .error .keyError
  | _, _ => .error .typeError

/-- Python `v[0]`: first character of a string, first element of a list,
`KeyError` for a (string-keyed) dictionary, `TypeError` for `None`. -/
def pyIndex0 : Val → Except Err Val
  | .str s =>
      match s.data with
      | [] => .error .indexError
      | c :: _ => .ok (.str (String.mk [c]))
  | .list xs =>
      match xs with
      | [] => .error .indexError
      | v :: _ => .ok v
  | .dict _ => .error .keyError
  | .none => .error .typeError

/-- Python `v == s` for a dictionary value against a string literal:
only string values can compare equal. -/
def valEqStr (v : Val) (s : String) : Bool :=
  match v with
  | .str t => t = s
  | _ => false

/-! ## Resource listers

Each lister issues one pool-info RPC and folds over the parsed response's
top-level elements.  The transport is abstracted: each function below takes
the parsed root element of the response its single RPC call would have
returned.  The claims' "zero elements" case is a root with no children. -/

/-- The common loop of `_list_images` / `_list_security_groups` /
`_list_templates` / `_list_vns` / `avail_locations`:
`out[elem.find('NAME').text] = _xml_to_dict(elem)` for each element. -/
def poolByName : XmlForest → List (Option String × Val) → Except Err (List (Option String × Val))
  | .nil, acc => .ok acc
  | .cons e rest, acc =>
      match findTextO e "NAME" with
      | .error err => .error err
      | .ok nm => poolByName rest (pySetO acc nm (Val.dict (_xml_to_dict e)))

/-- `_list_images` on the parsed `imagepool.info` response. -/
def _list_images (pool : XmlElem) : Except Err (List (Option String × Val)) :=
  poolByName pool.children []

/-- `_list_security_groups` on the parsed `secgrouppool.info` response. -/
def _list_security_groups (pool : XmlElem) : Except Err (List (Option String × Val)) :=
  poolByName pool.children []

/-- `_list_templates` on the parsed `templatepool.info` response. -/
def _list_templates (pool : XmlElem) : Except Err (List (Option String × Val)) :=
  poolByName pool.children []

/-- `_list_vns` on the parsed `vnpool.info` response. -/
def _list_vns (pool : XmlElem) : Except Err (List (Option String × Val)) :=
  poolByName pool.children []

/-- `_list_vms` on the parsed `vmpool.info` response (the kept-VMs filter of
the RPC arguments only affects the remote call). -/
def _list_vms (pool : XmlElem) : Except Err (List (Option String × Val)) :=
  poolByName pool.children []

/-- The loop body of `avail_locations` on the parsed `hostpool.info`
response. -/
def avail_locations (pool : XmlElem) : Except Err (List (Option String × Val)) :=
  poolByName pool.children []

/-- One `for vm in etree.XML(vm_pool)` iteration of `_list_nodes`: the
summary record (and, in full mode, the flattened record that replaces it),
keyed by the VM's `NAME` text.  Field accesses happen in source order, so
the first missing tag determines the raised `AttributeError`. -/
def listNodesItem (full : Bool) (vm : XmlElem) : Except Err (Option String × Val) :=
  match findTextO vm "NAME" with
  | .error e => .error e
  | .ok name =>
    match findTag "TEMPLATE" vm.children with
    | Option.none => .error .attributeError
    | some tmpl =>
      match findTextO tmpl "CPU" with
      | .error e => .error e
      | .ok cpu =>
        match findTextO tmpl "MEMORY" with
        | .error e => .error e
        | .ok memory =>
          match (findAll "NIC" tmpl.children).mapM (fun nic => findTextO nic "IP") with
          | .error e => .error e
          | .ok ips =>
            match findTextO vm "ID" with
            | .error e => .error e
            | .ok idT =>
              match findTextO tmpl "TEMPLATE_ID" with
              | .error e => .error e
              | .ok image =>
                match findTextO vm "STATE" with
                | .error e => .error e
                | .ok st =>
                  if full then .ok (name, Val.dict (_xml_to_dict vm))
                  else .ok (name, Val.dict
                    [("id", valOfOpt idT),
                     ("image", valOfOpt image),
                     ("name", valOfOpt name),
                     ("size", Val.dict [("cpu", valOfOpt cpu), ("memory", valOfOpt memory)]),
                     ("state", valOfOpt st),
                     ("private_ips", Val.list (ips.map valOfOpt)),
                     ("public_ips", Val.list [])])

/-- The element loop of `_list_nodes`. -/
def listNodesGo (full : Bool) : XmlForest → List (Option String × Val) →
    Except Err (List (Option String × Val))
  | .nil, acc => .ok acc
  | .cons vm rest, acc =>
      match listNodesItem full vm with
      | .error e => .error e
      | .ok (name, record) => listNodesGo full rest (pySetO acc name record)

/-- `_list_nodes` on the parsed `vmpool.info` response. -/
def _list_nodes (full : Bool) (pool : XmlElem) : Except Err (List (Option String × Val)) :=
  listNodesGo full pool.children []

/-! ## Call traces -/

/-- The outward calls the modelled operations can issue: RPC calls (with the
arguments the claims talk about), fired events, host-framework collaborator
calls, and the bootstrap handoff. -/
inductive Call where
  | fireEvent (tag : String)
  | cacheNode (name : String)
  | deleteMinionCachedir (name : String)
  | imagepoolInfo
  | hostpoolInfo
  | vmpoolInfo
  | secgrouppoolInfo
  | templatepoolInfo
  | vnpoolInfo
  | templateInstantiate (imageId : Int) (name : String) (persist : Bool)
      (schedRequirements : String)
  | vmAction (verb : String) (vmId : Int)
  | imageUpdate (imageId : Int) (fileData : String) (updateNumber : Int)
  | templateUpdateRpc (templateId : Int) (fileData : String) (updateNumber : Int)
  | secgroupUpdateRpc (secgroupId : Int) (fileData : String) (updateNumber : Int)
  | bootstrap (name : String)
deriving DecidableEq, Repr

/-- Is this call the `one.template.instantiate` RPC? -/
def Call.isInstantiate : Call → Bool
  | .templateInstantiate _ _ _ _ => true
  | _ => false

/-- Is this call a `one.vm.action` RPC? -/
def Call.isVmActionCall : Call → Bool
  | .vmAction _ _ => true
  | _ => false

/-- Is this call the bootstrap handoff? -/
def Call.isBootstrapCall : Call → Bool
  | .bootstrap _ => true
  | _ => false

/-! ## Bounded-retry lookup helpers -/

/-- Python `time.sleep(0.5)`'s delay, in the same time units as the source. -/
def sleepDelay : ℚ := 1 / 2

/-- The outcome of a bounded-retry lookup: the returned record (or the
propagated exception), the number of lister calls made, and the total time
spent sleeping. -/
structure LookupOutcome where
  result : Except Err Val
  calls : Nat
  pause : ℚ
deriving Repr

/-- The `while attempts >= 0` loop shared by `_get_node` and
`_get_template`.  `lister k` is the result of the `k`-th lister call (each
call issues a fresh pool-info RPC, so successive calls may observe different
pools).  The Nat argument `n` counts the remaining loop iterations: the
source enters the loop body for `attempts = 10, 9, ..., 0`, so the top-level
callers pass `n = 11`.  A lister exception propagates (only `KeyError` is
caught); on a missing key the loop sleeps 0.5 and retries; when iterations
are exhausted the helper returns the empty record `{}`. -/
def retryLoop (lister : Nat → Except Err (List (Option String × Val))) (name : String) :
    Nat → Nat → LookupOutcome
  | _, 0 => ⟨.ok (Val.dict []), 0, 0⟩
  | k, n + 1 =>
      match lister k with
      | .error e => ⟨.error e, 1, 0⟩
      | .ok pool =>
          match lookupO pool (some name) with
          | some v => ⟨.ok v, 1, 0⟩
          | Option.none =>
              let r := retryLoop lister name (k + 1) n
              ⟨r.result, r.calls + 1, r.pause + sleepDelay⟩

/-- `_get_node(name)`: retry `list_nodes_full()[name]` with `attempts = 10`
and `while attempts >= 0` — i.e. 11 lister attempts — sleeping 0.5 after
each `KeyError`, and return `{}` on exhaustion.  `vmPools k` is the parsed
`vmpool.info` response seen by the `k`-th attempt.  The found record is a
flattened (dictionary-valued) record by construction of `_list_nodes`. -/
def _get_node (vmPools : Nat → XmlElem) (name : String) : LookupOutcome :=
  retryLoop (fun k => _list_nodes true (vmPools k)) name 0 11

/-- `_get_template(name)`: identical retry structure over
`_list_templates()[name]`. -/
def _get_template (templatePools : Nat → XmlElem) (name : String) : LookupOutcome :=
  retryLoop (fun k => _list_templates (templatePools k)) name 0 11

/-- `show_instance(name, call)`: context check, `_get_node`, then a
`cache_node` host call with the (possibly empty) record. -/
def show_instance (vmPools : Nat → XmlElem) (name : String) (call : Option String) :
    Except Err Val × List Call :=
  if call ≠ some "action" then
    (.error (.systemExit "The show_instance action must be called with -a or --action."), [])
  else
    match (_get_node vmPools name).result with
    | .error e => (.error e, [])
    | .ok node => (.ok node, [Call.cacheNode name])

/-! ## destroy -/

/-- The uniform action result record: the `action` label, the provider's
success flag, the subject id, and the provider error code — the fields named
`deleted`/`node_id`/`error_code` (or `updated`/`image_id`/... for the update
dispatchers) in the source dictionaries. -/
structure ActionResult where
  action : String
  flag : Bool
  ident : Int
  errorCode : Int
deriving DecidableEq, Repr

/-- The environment `destroy` runs against: the `vmpool.info` responses its
`_get_node` retries observe, the provider's `(flag, id, error-code)` reply
to the `one.vm.action` call, and the host's `update_cachedir` option. -/
structure DestroyEnv where
  vmPools : Nat → XmlElem
  actionResp : Bool × Int × Int
  updateCachedir : Bool

/-- `destroy(name, call)`: context check, `destroying` event, resolve the
record via `show_instance` (bounded-retry `_get_node`), one
`one.vm.action(auth, 'delete', int(data['id']))` RPC, `destroyed` event,
optional minion-cache purge, and the echoed action result. -/
def destroy (name : String) (call : Option String) (env : DestroyEnv) :
    Except Err ActionResult × List Call :=
  if call = some "function" then
    (.error (.systemExit
      "The destroy action must be called with -d, --destroy, -a or --action."), [])
  else
    let tr := [Call.fireEvent ("salt/cloud/" ++ name ++ "/destroying")]
    match show_instance env.vmPools name (some "action") with
    | (.error e, str2) => (.error e, tr ++ str2)
    | (.ok data, str2) =>
      let tr := tr ++ str2
      match getItem data "id" with
      | .error e => (.error e, tr)
      | .ok idv =>
        match pyIntOfVal idv with
        | .error e => (.error e, tr)
        | .ok i =>
          let tr := tr ++ [Call.vmAction "delete" i,
            Call.fireEvent ("salt/cloud/" ++ name ++ "/destroyed")]
          let tr := if env.updateCachedir then tr ++ [Call.deleteMinionCachedir name] else tr
          (.ok ⟨"vm.delete", env.actionResp.1, env.actionResp.2.1, env.actionResp.2.2⟩, tr)

/-! ## Update dispatchers -/

/-- CLI keyword arguments, as passed by the host framework: absent entirely
(`None`) or a string-valued mapping. -/
def Kwargs := Option (List (String × String))

/-- `kwargs.get(key, None)` after the `if kwargs is None: kwargs = {}`
normalisation. -/
def kwGet (kwargs : Kwargs) (key : String) : Option String :=
  match kwargs with
  | Option.none => Option.none
  | some l => lookupStr l key

/-- The environment of the update dispatchers: the local file system read by
`salt.utils.fopen(path).read()` and the provider's reply tuple to the update
RPC. -/
structure UpdateEnv where
  readFile : String → Except Err String
  updateResp : Bool × Int × Int

/-- The shared body of `image_update` / `template_update` /
`secgroup_update` after the per-function strings are fixed: context check,
required-argument check, the `update_type ∈ ['replace', 'merge'] ↦ 0/1`
mapping, file read, one update RPC, and the echoed action result.
`mkRpc` builds the per-resource RPC trace entry; the argument order of the
file read and the id conversion follows `image_update`/`secgroup_update`
(`template_update` reads the file after `_get_xml_rpc`, which is
observationally identical here). -/
def updateBody (contextMsg : String) (requiresMsg : String) (idArg : String)
    (action : String) (mkRpc : Int → String → Int → Call)
    (call : Option String) (kwargs : Kwargs) (env : UpdateEnv) :
    Except Err ActionResult × List Call :=
  if call ≠ some "function" then
    (.error (.systemExit contextMsg), [])
  else
    let idv := kwGet kwargs idArg
    let path := kwGet kwargs "path"
    let updateType := kwGet kwargs "update_type"
    if ¬ (truthy idv ∧ truthy path ∧ truthy updateType) then
      (.error (.systemExit requiresMsg), [])
    else
      let updateNumber : Except Err Int :=
        if updateType = some "replace" then .ok 0
        else if updateType = some "merge" then .ok 1
        else .error (.systemExit "The update_type argument must be either replace or merge.")
      match updateNumber with
      | .error e => (.error e, [])
      | .ok num =>
        match env.readFile (pyStr path) with
        | .error e => (.error e, [])
        | .ok fileData =>
          match pyInt (pyStr idv) with
          | .error e => (.error e, [])
          | .ok i =>
            (.ok ⟨action, env.updateResp.1, env.updateResp.2.1, env.updateResp.2.2⟩,
              [mkRpc i fileData num])

/-- `image_update(call, kwargs)` (its context error names `image_allocate`,
as in the source). -/
def image_update (call : Option String) (kwargs : Kwargs) (env : UpdateEnv) :
    Except Err ActionResult × List Call :=
  updateBody "The image_allocate function must be called with -f or --function."
    ("The image_update function requires an " ++ pyRepr "image_id" ++ ", a file " ++
      pyRepr "path" ++ ", and an " ++ pyRepr "update_type" ++ " to be provided.")
    "image_id" "image.update" Call.imageUpdate call kwargs env

/-- `template_update(call, kwargs)`. -/
def template_update (call : Option String) (kwargs : Kwargs) (env : UpdateEnv) :
    Except Err ActionResult × List Call :=
  updateBody "The template_update function must be called with -f or --function."
    ("The template_update function requires a " ++ pyRepr "template_id" ++ ", a file " ++
      pyRepr "path" ++ ", and an " ++ pyRepr "update_type" ++ " to be provided.")
    "template_id" "template.update" Call.templateUpdateRpc call kwargs env

/-- `secgroup_update(call, kwargs)` (its context error names
`secgroup_allocate`, as in the source). -/
def secgroup_update (call : Option String) (kwargs : Kwargs) (env : UpdateEnv) :
    Except Err ActionResult × List Call :=
  updateBody "The secgroup_allocate function must be called with -f or --function."
    ("The secgroup_update function requires a " ++ pyRepr "secgroup_id" ++ ", a file " ++
      pyRepr "path" ++ ", and an " ++ pyRepr "update_type" ++ " to be provided.")
    "secgroup_id" "secgroup.update" Call.secgroupUpdateRpc call kwargs env

/-! ## Name-to-id getter entry points -/

/-- `get_image_id(kwargs, call)`: context check, the explicit
`requires a name` check, then `_list_images()[name]['id']`.
`imagePool` is the parsed response of the single `imagepool.info` call. -/
def get_image_id (kwargs : Kwargs) (call : Option String) (imagePool : XmlElem) :
    Except Err Val × List Call :=
  if call = some "action" then
    (.error (.systemExit "The get_image_id function must be called with -f or --function."), [])
  else
    match kwGet kwargs "name" with
    | Option.none => (.error (.systemExit "The get_image_id function requires a name."), [])
    | some name =>
      match _list_images imagePool with
      | .error e => (.error e, [Call.imagepoolInfo])
      | .ok images =>
        match lookupO images (some name) with
        | Option.none => (.error .keyError, [Call.imagepoolInfo])
        | some record =>
          match getItem record "id" with
          | .error e => (.error e, [Call.imagepoolInfo])
          | .ok idv => (.ok idv, [Call.imagepoolInfo])

/-- `get_secgroup_id(kwargs, call)`: context check, **no** name check, then
`_list_security_groups()[name]` with the possibly-`None` name, then
`['id']`. -/
def get_secgroup_id (kwargs : Kwargs) (call : Option String) (secgroupPool : XmlElem) :
    Except Err Val × List Call :=
  if call = some "action" then
    (.error (.systemExit
      "The get_secgroup_id function must be called with -f or --function."), [])
  else
    let name := kwGet kwargs "name"
    match _list_security_groups secgroupPool with
    | .error e => (.error e, [Call.secgrouppoolInfo])
    | .ok groups =>
      match lookupO groups name with
      | Option.none => (.error .keyError, [Call.secgrouppoolInfo])
      | some record =>
        match getItem record "id" with
        | .error e => (.error e, [Call.secgrouppoolInfo])
        | .ok idv => (.ok idv, [Call.secgrouppoolInfo])

/-- `get_template_id(kwargs, call)`: context check, the explicit
`requires a name` check, then `_get_template(name)['id']` (bounded-retry). -/
def get_template_id (kwargs : Kwargs) (call : Option String)
    (templatePools : Nat → XmlElem) : Except Err Val × List Call :=
  if call = some "action" then
    (.error (.systemExit
      "The list_nodes_full function must be called with -f or --function."), [])
  else
    match kwGet kwargs "name" with
    | Option.none => (.error (.systemExit "The get_template_id function requires a name."), [])
    | some name =>
      match (_get_template templatePools name).result with
      | .error e => (.error e, [Call.templatepoolInfo])
      | .ok record =>
        match getItem record "id" with
        | .error e => (.error e, [Call.templatepoolInfo])
        | .ok idv => (.ok idv, [Call.templatepoolInfo])

/-- `get_vm_id(kwargs, call)`: context check, the explicit `requires a name`
check, then `_list_vms()[name]['id']`. -/
def get_vm_id (kwargs : Kwargs) (call : Option String) (vmPool : XmlElem) :
    Except Err Val × List Call :=
  if call = some "action" then
    (.error (.systemExit "The get_vm_id function must be called with -f or --function."), [])
  else
    match kwGet kwargs "name" with
    | Option.none => (.error (.systemExit "The get_vm_id function requires a name."), [])
    | some name =>
      match _list_vms vmPool with
      | .error e => (.error e, [Call.vmpoolInfo])
      | .ok vms =>
        match lookupO vms (some name) with
        | Option.none => (.error .keyError, [Call.vmpoolInfo])
        | some record =>
          match getItem record "id" with
          | .error e => (.error e, [Call.vmpoolInfo])
          | .ok idv => (.ok idv, [Call.vmpoolInfo])

/-- `get_vn_id(kwargs, call)`: context check, the explicit `requires a name`
check, then `_list_vns()[name]['id']`. -/
def get_vn_id (kwargs : Kwargs) (call : Option String) (vnPool : XmlElem) :
    Except Err Val × List Call :=
  if call = some "action" then
    (.error (.systemExit "The get_vn_id function must be called with -f or --function."), [])
  else
    match kwGet kwargs "name" with
    | Option.none => (.error (.systemExit "The get_vn_id function requires a name."), [])
    | some name =>
      match _list_vns vnPool with
      | .error e => (.error e, [Call.vnpoolInfo])
      | .ok vns =>
        match lookupO vns (some name) with
        | Option.none => (.error .keyError, [Call.vnpoolInfo])
        | some record =>
          match getItem record "id" with
          | .error e => (.error e, [Call.vnpoolInfo])
          | .ok idv => (.ok idv, [Call.vnpoolInfo])

/-! ## VM provisioning flow (`create`) -/

/-- The per-VM configuration `create` consumes (profile parameters and
`config.get_cloud_config_value` reads).  Optional fields model unset
configuration keys (`None`). -/
structure VmSpec where
  name : String
  image : Option String
  location : Option String
  private_networking : Option Bool
  private_key : Option String
  ssh_username : Option String

/-- The `for image in images` loop of `get_image`: return the first record
whose `name` or `id` field equals the configured reference; missing
`name`/`id` fields raise `KeyError` (both tuple members are evaluated before
the membership test). -/
def getImageLoop (vmImage : String) (notFoundMsg : String) :
    List (Option String × Val) → Except Err Val
  | [] => .error (.notFound notFoundMsg)
  | (_, record) :: rest =>
      match getItem record "name" with
      | .error e => .error e
      | .ok nm =>
        match getItem record "id" with
        | .error e => .error e
        | .ok idv =>
          if valEqStr nm vmImage ∨ valEqStr idv vmImage then .ok idv
          else getImageLoop vmImage notFoundMsg rest

/-- `get_image(vm_)`: list the image pool, stringify the configured image
reference (`str(None) = "None"`), scan for a record matching by name or id,
and return its `id` field; `SaltCloudNotFound` otherwise. -/
def get_image (imagePool : XmlElem) (imageCfg : Option String) : Except Err Val :=
  match _list_images imagePool with
  | .error e => .error e
  | .ok images =>
      let vmImage := pyStr imageCfg
      getImageLoop vmImage
        ("The specified image, " ++ pyRepr vmImage ++ ", could not be found.") images

/-- `get_location(vm_)`: like `get_image` over the host pool, except that
the stringified value `"None"` (unset location) short-circuits to `None`
before the scan. -/
def get_location (hostPool : XmlElem) (locationCfg : Option String) :
    Except Err (Option Val) :=
  match avail_locations hostPool with
  | .error e => .error e
  | .ok locations =>
      let vmLocation := pyStr locationCfg
      if vmLocation = "None" then .ok Option.none
      else
        match getImageLoop vmLocation
          ("The specified location, " ++ pyRepr vmLocation ++ ", could not be found.")
          locations with
        | .error e => .error e
        | .ok idv => .ok (some idv)

/-- The three-valued answer of `create`'s local `__query_node_data`: Python
`False` (empty record, or lifecycle state `'7'`), the node record
(`lcm_state` `'3'`), or the implicit `None` (keep polling). -/
inductive QueryAns where
  | failed
  | ready (data : Val)
  | pending

/-- `__query_node_data(vm_name)`: `show_instance`, falsiness check, then the
`state == '7'` / `lcm_state == '3'` tests in source order (a record missing
the `state` or `lcm_state` key raises `KeyError`, which nothing below
catches).  `pools` are the `vmpool.info` responses this poll attempt's
`_get_node` retries observe. -/
def queryNodeData (pools : Nat → XmlElem) (vmName : String) : Except Err QueryAns :=
  match (show_instance pools vmName (some "action")).1 with
  | .error e => .error e
  | .ok nodeData =>
    match nodeData with
    | .dict [] => .ok .failed
    | _ =>
      match getItem nodeData "state" with
      | .error e => .error e
      | .ok st =>
        if valEqStr st "7" then .ok .failed
        else
          match getItem nodeData "lcm_state" with
          | .error e => .error e
          | .ok lcm =>
            if valEqStr lcm "3" then .ok (.ready nodeData) else .ok .pending

/-- Modelled from the spec: `salt.utils.cloud.wait_for_ip` (a host
collaborator absent from this excerpt).  Per spec 4.6 step 5 it repeatedly
invokes the query callback at a fixed interval, bounded by the configured
timeout: a `False` answer short-circuits as `SaltCloudExecutionFailure`, a
truthy answer is returned, exhausting the bound raises
`SaltCloudExecutionTimeout`; exceptions from the callback propagate.
`query j` is the answer of poll attempt `j`. -/
def waitForIp (query : Nat → Except Err QueryAns) :
    Nat → Nat → Except Err Val
  | _, 0 => .error (.executionTimeout "Unable to connect to the VM in the allotted time.")
  | j, n + 1 =>
      match query j with
      | .error e => .error e
      | .ok .failed => .error (.executionFailure "Failed to obtain the node data.")
      | .ok (.ready d) => .ok d
      | .ok .pending => waitForIp query (j + 1) n

/-- The environment `create` runs against: the pool responses its helpers
observe, the outcome of the `one.template.instantiate` RPC (an `Except`
because the source wraps the call in a catch-all `try`), the per-poll-attempt
`vmpool.info` responses, the environment of the compensating `destroy`, the
local file system (for the `os.path.isfile` check), the host bootstrap's
result record, and the wait timeout/interval configuration (defaults 600
and 2). -/
structure CreateEnv where
  imagePool : XmlElem
  hostPool : XmlElem
  instantiateResp : Except Err Unit
  pollPools : Nat → Nat → XmlElem
  destroyEnv : DestroyEnv
  files : List String
  bootstrapRet : List (String × Val)
  waitTimeout : Nat
  waitInterval : Nat

/-- Python `create` returns `False` (instantiate failure) or the result
record. -/
inductive CreateRet where
  | failed
  | ret (d : List (String × Val))

/-- Python `d[k] = v` on a string-keyed insertion-ordered dictionary. -/
def pySetS : List (String × Val) → String → Val → List (String × Val)
  | [], k, v => [(k, v)]
  | (k', v') :: rest, k, v =>
      if k' = k then (k, v) :: rest else (k', v') :: pySetS rest k v

/-- The private-address extraction of `create`:
`data['private_ips'][0]`, falling back to `data['template']['nic']['ip']`
on (and only on) a `KeyError`. -/
def privateIpOf (data : Val) : Except Err Val :=
  match (match getItem data "private_ips" with
         | .error e => .error e
         | .ok v => pyIndex0 v : Except Err Val) with
  | .error Err.keyError => do
      let t ← getItem data "template"
      let n ← getItem t "nic"
      getItem n "ip"
  | r => r

/-- The part of `create` from the private-address extraction to the returned
result record: `privateIpOf`, the bootstrap handoff, the
`ret[...] = ...` assignments (right-hand sides evaluated in source order:
`data['id']`, `vm_['image']`, `data['template']['memory']`, `data['state']`),
and the `created` event. -/
def createBootstrapRun (vm : VmSpec) (env : CreateEnv) (data : Val) :
    Except Err CreateRet × List Call :=
  match privateIpOf data with
  | .error e => (.error e, [])
  | .ok privateIp =>
    let tr := [Call.bootstrap vm.name]
    match getItem data "id" with
    | .error e => (.error e, tr)
    | .ok idv =>
      match vm.image with
      | Option.none => (.error .keyError, tr)
      | some img =>
        match (do
            let t ← getItem data "template"
            getItem t "memory" : Except Err Val) with
        | .error e => (.error e, tr)
        | .ok mem =>
          match getItem data "state" with
          | .error e => (.error e, tr)
          | .ok st =>
            let ret := pySetS env.bootstrapRet "id" idv
            let ret := pySetS ret "image" (Val.str img)
            let ret := pySetS ret "name" (Val.str vm.name)
            let ret := pySetS ret "size" mem
            let ret := pySetS ret "state" st
            let ret := pySetS ret "private_ips" privateIp
            let ret := pySetS ret "public_ips" (Val.list [])
            (.ok (.ret ret), tr ++ [Call.fireEvent ("salt/cloud/" ++ vm.name ++ "/created")])

/-- The tail of `create` after a successful poll: the `key_filename`
existence check (`SaltCloudConfigError` naming the file when the configured
key is not on disk), then the extraction/bootstrap/assembly tail. -/
def createBootstrapPhase (vm : VmSpec) (env : CreateEnv) (data : Val) :
    Except Err CreateRet × List Call :=
  match vm.private_key with
  | some kf =>
      if kf ∈ env.files then createBootstrapRun vm env data
      else
        (.error (.configError
          ("The defined key_filename " ++ pyRepr kf ++ " does not exist")), [])
  | Option.none => createBootstrapRun vm env data

/-- The scheduler-requirement expression `create` passes to the instantiate
RPC: `SCHED_REQUIREMENTS="ID=<region_id>"` when a location was resolved,
the empty string otherwise. -/
def schedRequirements : Option Val → String
  | Option.none => ""
  | some rv => "SCHED_REQUIREMENTS=\"ID=" ++ pyStrOfVal rv ++ "\""

/-- `create(vm_)`: `creating` event, image and location resolution,
`requesting` event, the scheduler-requirement expression, the instantiate
RPC inside a catch-all `try` that turns any failure into `return False`,
the readiness poll, the compensating destroy on poll timeout/failure (the
`finally: raise SaltCloudSystemExit(str(exc))` supersedes anything the
destroy raises, which is what swallows its `SaltCloudSystemExit`), and the
bootstrap tail.  The profile pre-check and the deprecated-provider aliasing
touch only host configuration and are not modelled. -/
def create (vm : VmSpec) (env : CreateEnv) : Except Err CreateRet × List Call :=
  let tr := [Call.fireEvent ("salt/cloud/" ++ vm.name ++ "/creating"), Call.imagepoolInfo]
  match get_image env.imagePool vm.image with
  | .error e => (.error e, tr)
  | .ok imageIdVal =>
    let tr := tr ++ [Call.hostpoolInfo]
    match get_location env.hostPool vm.location with
    | .error e => (.error e, tr)
    | .ok regionId =>
      let tr := tr ++ [Call.fireEvent ("salt/cloud/" ++ vm.name ++ "/requesting")]
      let region := schedRequirements regionId
      match pyIntOfVal imageIdVal with
      | .error _ => (.ok .failed, tr)
      | .ok imgId =>
        let tr := tr ++ [Call.templateInstantiate imgId vm.name false region]
        match env.instantiateResp with
        | .error _ => (.ok .failed, tr)
        | .ok _ =>
          match waitForIp (fun j => queryNodeData (env.pollPools j) vm.name) 0
              (env.waitTimeout / env.waitInterval) with
          | .error (.executionTimeout m) =>
              let d := destroy vm.name Option.none env.destroyEnv
              (.error (.systemExit m), tr ++ d.2)
          | .error (.executionFailure m) =>
              let d := destroy vm.name Option.none env.destroyEnv
              (.error (.systemExit m), tr ++ d.2)
          | .error e => (.error e, tr)
          | .ok data =>
              let r := createBootstrapPhase vm env data
              (r.1, tr ++ r.2)

/-! ## Key sequences of the flattener's suffixing loop

For `K` siblings sharing a (lower-cased) tag `t`, the suffixing loop hands
out the keys `t`, `t1`, `t12`, `t123`, ... — each subsequent sibling's key
extends the previous one by the decimal digits of the next index, because
the loop accumulates into `key` (`key += str(idx)`) instead of re-starting
from the bare tag. -/

/-- The key the `i`-th same-tag sibling receives: `cumulKey t 0 = t`,
`cumulKey t (i+1) = cumulKey t i ++ repr (i+1)`. -/
def cumulKey (t : String) : Nat → String
  | 0 => t
  | i + 1 => cumulKey t i ++ Nat.repr (i + 1)

/-- The keys of the first `i` same-tag siblings, in sibling order. -/
def cumulKeys (t : String) : Nat → List String
  | 0 => []
  | i + 1 => cumulKeys t i ++ [cumulKey t i]

/-- The value `_xml_to_dict` stores for one child: its text when present,
otherwise its recursive flattening. -/
def childVal (c : XmlElem) : Val :=
  match c.text with
  | some t => Val.str t
  | Option.none => Val.dict (_xml_to_dict c)

/-! ## Concrete inputs for witnesses and counterexamples -/

/-- An empty pool response: a root element with zero children. -/
def emptyPool : XmlElem := .mk "POOL" Option.none .nil

/-- A VM pool element with every field `_list_nodes` touches, in the
`'failed'` lifecycle state (`STATE` text `'7'`). -/
def vmElemFailed : XmlElem :=
  .mk "VM" Option.none (XmlForest.ofList
    [.mk "ID" (some "12") .nil,
     .mk "NAME" (some "web") .nil,
     .mk "STATE" (some "7") .nil,
     .mk "LCM_STATE" (some "0") .nil,
     .mk "TEMPLATE" Option.none (XmlForest.ofList
       [.mk "TEMPLATE_ID" (some "3") .nil,
        .mk "CPU" (some "1") .nil,
        .mk "MEMORY" (some "512") .nil,
        .mk "NIC" Option.none (XmlForest.ofList [.mk "IP" (some "10.0.0.5") .nil])])])

/-- The same VM, running (`STATE` `'3'`, `LCM_STATE` `'3'`). -/
def vmElemReady : XmlElem :=
  .mk "VM" Option.none (XmlForest.ofList
    [.mk "ID" (some "12") .nil,
     .mk "NAME" (some "web") .nil,
     .mk "STATE" (some "3") .nil,
     .mk "LCM_STATE" (some "3") .nil,
     .mk "TEMPLATE" Option.none (XmlForest.ofList
       [.mk "TEMPLATE_ID" (some "3") .nil,
        .mk "CPU" (some "1") .nil,
        .mk "MEMORY" (some "512") .nil,
        .mk "NIC" Option.none (XmlForest.ofList [.mk "IP" (some "10.0.0.5") .nil])])])

/-- `vmpool.info` responses containing exactly the failed / ready VM. -/
def vmPoolFailed : XmlElem := .mk "VM_POOL" Option.none (XmlForest.ofList [vmElemFailed])

/-- A pool whose single VM is running. -/
def vmPoolReady : XmlElem := .mk "VM_POOL" Option.none (XmlForest.ofList [vmElemReady])

/-- An image pool holding one image named `img1` with id `3`. -/
def imagePoolW : XmlElem :=
  .mk "IMAGE_POOL" Option.none (XmlForest.ofList
    [.mk "IMAGE" Option.none (XmlForest.ofList
      [.mk "NAME" (some "img1") .nil, .mk "ID" (some "3") .nil])])

/-- The VM specification used by the `create` witnesses (no location, no
private key). -/
def vmW : VmSpec :=
  ⟨"web", some "img1", Option.none, Option.none, Option.none, Option.none⟩

/-- The VM specification of the key-file witness: a configured private key
path that is not on disk. -/
def vmW9 : VmSpec :=
  ⟨"web", some "img1", Option.none, Option.none, some "/root/no-such-key", Option.none⟩

/-- The destroy environment of the witnesses: the pool resolves `web` to id
`12`; the provider replies `(true, 12, 0)`. -/
def destroyEnvW : DestroyEnv := ⟨fun _ => vmPoolReady, (true, 12, 0), false⟩

/-- A `create` environment whose poll observes the failed VM. -/
def envW3 : CreateEnv :=
  ⟨imagePoolW, emptyPool, .ok (), fun _ _ => vmPoolFailed, destroyEnvW, [], [], 600, 2⟩

/-- A `create` environment whose poll observes the running VM. -/
def envW9 : CreateEnv :=
  ⟨imagePoolW, emptyPool, .ok (), fun _ _ => vmPoolReady, destroyEnvW, [], [], 600, 2⟩

/-- The update environment of the witnesses: one readable file, reply
`(true, 7, 0)`. -/
def updateEnvW : UpdateEnv :=
  ⟨fun p => if p = "/tmp/upd.txt" then .ok "DATA" else .error .ioError, (true, 7, 0)⟩

/-- A well-formed keyword-argument set for an update dispatcher: the
resource id under `idKey`, a file path, and an update mode. -/
def mkUpdateKw (idKey idV pathV utV : String) : Kwargs :=
  some [(idKey, idV), ("path", pathV), ("update_type", utV)]

/-! ## Supporting lemmas -/

lemma toDigitsCore_le_length (b : Nat) :
    ∀ (fuel n : Nat) (ds : List Char), ds.length ≤ (Nat.toDigitsCore b fuel n ds).length := by
  intro fuel
  induction fuel with
  | zero => intro n ds; simp [Nat.toDigitsCore]
  | succ f ih =>
    intro n ds
    simp only [Nat.toDigitsCore]
    split
    · simp
    · exact le_trans (by simp) (ih (n / b) (Nat.digitChar (n % b) :: ds))

/-- The decimal representation of a natural number is never empty. -/
lemma natRepr_length_pos (n : Nat) : 0 < (Nat.repr n).length := by
  have h := toDigitsCore_le_length 10 n (n / 10) [Nat.digitChar (n % 10)]
  simp only [Nat.repr, Nat.toDigits, List.asString, String.length]
  simp only [Nat.toDigitsCore]
  split
  · simp
  · simpa using h

lemma length_filter_le_of {α : Type} (p q : α → Bool)
    (hpq : ∀ a, p a = true → q a = true) :
    ∀ l : List α, (l.filter p).length ≤ (l.filter q).length := by
  intro l
  induction l with
  | nil => simp
  | cons a t ih =>
    cases hp : p a with
    | true => simp [List.filter_cons, hpq a hp, hp]; omega
    | false =>
      cases hq : q a with
      | true => simp [List.filter_cons, hp, hq]; omega
      | false => simp [List.filter_cons, hp, hq]; exact ih

lemma length_filter_lt_of {α : Type} (p q : α → Bool)
    (hpq : ∀ a, p a = true → q a = true) :
    ∀ (l : List α) (x : α), x ∈ l → q x = true → p x = false →
      (l.filter p).length < (l.filter q).length := by
  intro l
  induction l with
  | nil => intro x hx; simp at hx
  | cons a t ih =>
    intro x hx hqx hpx
    rcases List.mem_cons.mp hx with rfl | hxt
    · simp only [List.filter_cons, hpx, hqx]
      simp
      exact Nat.lt_succ_of_le (length_filter_le_of p q hpq t)
    · cases hp : p a with
      | true =>
        simp [List.filter_cons, hp, hpq a hp]
        exact ih x hxt hqx hpx
      | false =>
        cases hq : q a with
        | true =>
          simp [List.filter_cons, hp, hq]
          exact Nat.lt_succ_of_lt (ih x hxt hqx hpx)
        | false =>
          simp [List.filter_cons, hp, hq]
          exact ih x hxt hqx hpx

/-- The suffixing loop always terminates on a key not present in the
dictionary, provided its fuel exceeds the number of present keys at least
as long as the candidate: every iteration strictly lengthens the candidate,
so the collisions are with pairwise distinct present keys. -/
lemma uniqueKey_not_mem :
    ∀ (fuel : Nat) (keys : List String) (key : String) (idx : Nat),
      (keys.filter (fun k => key.length ≤ k.length)).length < fuel →
      uniqueKey keys key idx fuel ∉ keys := by
  intro fuel
  induction fuel with
  | zero => intro keys key idx h; omega
  | succ f ih =>
    intro keys key idx h
    by_cases hk : key ∈ keys
    · simp only [uniqueKey, hk, if_true]
      apply ih
      have hstep : ((keys.filter
            (fun k => decide ((key ++ Nat.repr idx).length ≤ k.length))).length <
          (keys.filter (fun k => decide (key.length ≤ k.length))).length) :=
        length_filter_lt_of _ _
          (by intro a ha
              simp only [decide_eq_true_eq, String.length_append] at ha ⊢
              have := natRepr_length_pos idx
              omega)
          keys key hk (by simp)
          (by have := natRepr_length_pos idx
              simp only [decide_eq_false_iff_not, String.length_append, not_le]
              omega)
      omega
    · simp only [uniqueKey, if_neg hk]
      exact hk

/-- The fuel `_xml_to_dict_go` passes is always sufficient: the chosen key
is fresh. -/
lemma uniqueKey_fresh (dicts : List (String × Val)) (base : String) (idx : Nat) :
    uniqueKey (dicts.map Prod.fst) base idx (dicts.length + 1) ∉ dicts.map Prod.fst := by
  apply uniqueKey_not_mem
  have h1 := List.length_filter_le (fun k => decide (base.length ≤ k.length))
    (dicts.map Prod.fst)
  simp only [List.length_map] at h1
  omega

/-! ### The cumulative key sequence -/

lemma cumulKey_length_lt (t : String) (i : Nat) :
    (cumulKey t i).length < (cumulKey t (i + 1)).length := by
  show (cumulKey t i).length < (cumulKey t i ++ Nat.repr (i + 1)).length
  rw [String.length_append]
  have := natRepr_length_pos (i + 1)
  omega

lemma cumulKey_injective (t : String) : Function.Injective (cumulKey t) := by
  have mono : StrictMono (fun i => (cumulKey t i).length) :=
    strictMono_nat_of_lt_succ (fun i => cumulKey_length_lt t i)
  intro a b h
  exact mono.injective (congrArg String.length h)

lemma cumulKeys_eq_map (t : String) : ∀ i, cumulKeys t i = (List.range i).map (cumulKey t) := by
  intro i
  induction i with
  | zero => rfl
  | succ n ih => simp [cumulKeys, List.range_succ, ih]

lemma cumulKeys_length (t : String) (i : Nat) : (cumulKeys t i).length = i := by
  rw [cumulKeys_eq_map]; simp

lemma mem_cumulKeys (t : String) (k i : Nat) : cumulKey t k ∈ cumulKeys t i ↔ k < i := by
  rw [cumulKeys_eq_map]
  constructor
  · intro h
    rcases List.mem_map.mp h with ⟨j, hj, hjk⟩
    obtain rfl := cumulKey_injective t hjk
    exact List.mem_range.mp hj
  · intro h
    exact List.mem_map.mpr ⟨k, List.mem_range.mpr h, rfl⟩

lemma cumulKeys_nodup (t : String) (i : Nat) : (cumulKeys t i).Nodup := by
  rw [cumulKeys_eq_map]
  exact List.Nodup.map (cumulKey_injective t) (List.nodup_range i)

/-- Running the suffixing loop against the keys of `i` earlier same-tag
siblings, starting from the `k`-th candidate, lands on the `i`-th
cumulative key. -/
lemma uniqueKey_cumul (t : String) (i : Nat) :
    ∀ (fuel k : Nat), k ≤ i → i - k < fuel →
      uniqueKey (cumulKeys t i) (cumulKey t k) (k + 1) fuel = cumulKey t i := by
  intro fuel
  induction fuel with
  | zero => intro k hk h; omega
  | succ f ih =>
    intro k hk hfuel
    by_cases hki : k = i
    · subst hki
      have hnm : cumulKey t k ∉ cumulKeys t k := by
        rw [mem_cumulKeys]; omega
      simp [uniqueKey, hnm]
    · have hklt : k < i := lt_of_le_of_ne hk hki
      have hmem : cumulKey t k ∈ cumulKeys t i := (mem_cumulKeys t k i).mpr hklt
      have hext : cumulKey t k ++ Nat.repr (k + 1) = cumulKey t (k + 1) := rfl
      simp only [uniqueKey, if_pos hmem, hext]
      exact ih (k + 1) hklt (by omega)

/-- The flattener's loop over `n` identical text-bearing siblings extends
the cumulative-key dictionary from `i` to `i + n` entries. -/
lemma go_replicate (tg txt : String) :
    ∀ (n i : Nat),
      _xml_to_dict_go (replicateForest n (XmlElem.mk tg (some txt) XmlForest.nil))
          ((cumulKeys (pyLower tg) i).map (fun k => (k, Val.str txt)))
        = (cumulKeys (pyLower tg) (i + n)).map (fun k => (k, Val.str txt)) := by
  intro n
  induction n with
  | zero => intro i; simp [replicateForest, _xml_to_dict_go]
  | succ m ih =>
    intro i
    have hfst : ((cumulKeys (pyLower tg) i).map
        (fun k => (k, Val.str txt))).map Prod.fst = cumulKeys (pyLower tg) i := by
      rw [List.map_map]
      exact List.map_id _
    have hlen : ((cumulKeys (pyLower tg) i).map (fun k => (k, Val.str txt))).length = i := by
      simp [cumulKeys_length]
    have hkey : uniqueKey (cumulKeys (pyLower tg) i) (pyLower tg) 1 (i + 1)
        = cumulKey (pyLower tg) i := by
      have h0 := uniqueKey_cumul (pyLower tg) i (i + 1) 0 (Nat.zero_le i) (by omega)
      simpa [cumulKey] using h0
    simp only [replicateForest, _xml_to_dict_go, XmlElem.tag, XmlElem.text,
      hfst, hlen, hkey]
    have happ : ((cumulKeys (pyLower tg) i).map (fun k => (k, Val.str txt))) ++
        [(cumulKey (pyLower tg) i, Val.str txt)]
        = (cumulKeys (pyLower tg) (i + 1)).map (fun k => (k, Val.str txt)) := by
      simp [cumulKeys]
    rw [happ, ih (i + 1)]
    congr 2
    omega

lemma nodup_append_singleton {α : Type} {l : List α} {a : α}
    (h : l.Nodup) (ha : a ∉ l) : (l ++ [a]).Nodup := by
  rw [List.nodup_append]
  refine ⟨h, List.nodup_singleton a, ?_⟩
  intro b hb hb1
  rcases List.mem_singleton.mp hb1 with rfl
  exact ha hb

/-- The invariant of the flattener's child loop: keys stay duplicate-free,
and the values are the existing values followed by one `childVal` per
remaining child, in order. -/
lemma xml_to_dict_go_spec (items : XmlForest) :
    ∀ dicts, (dicts.map Prod.fst).Nodup →
      ((_xml_to_dict_go items dicts).map Prod.fst).Nodup ∧
      (_xml_to_dict_go items dicts).map Prod.snd
        = dicts.map Prod.snd ++ (items.toList.map childVal) := by
  refine @XmlForest.spineRec
    (fun items => ∀ dicts, (dicts.map Prod.fst).Nodup →
      ((_xml_to_dict_go items dicts).map Prod.fst).Nodup ∧
      (_xml_to_dict_go items dicts).map Prod.snd
        = dicts.map Prod.snd ++ (items.toList.map childVal)) ?_ ?_ items
  · intro dicts hnd
    simp [_xml_to_dict_go, XmlForest.toList, hnd]
  · intro x xs ih dicts hnd
    have hfresh := uniqueKey_fresh dicts (pyLower x.tag) 1
    cases hx : x.text with
    | none =>
      have hnd2 : (((dicts ++
          [(uniqueKey (dicts.map Prod.fst) (pyLower x.tag) 1 (dicts.length + 1),
            Val.dict (_xml_to_dict x))]).map Prod.fst)).Nodup := by
        rw [List.map_append]
        exact nodup_append_singleton hnd (by simpa using hfresh)
      rcases ih _ hnd2 with ⟨h1, h2⟩
      constructor
      · simpa only [_xml_to_dict_go, hx] using h1
      · rw [show _xml_to_dict_go (XmlForest.cons x xs) dicts
            = _xml_to_dict_go xs (dicts ++
              [(uniqueKey (dicts.map Prod.fst) (pyLower x.tag) 1 (dicts.length + 1),
                Val.dict (_xml_to_dict x))]) by simp only [_xml_to_dict_go, hx]]
        rw [h2]
        simp [XmlForest.toList, childVal, hx]
    | some t =>
      have hnd2 : (((dicts ++
          [(uniqueKey (dicts.map Prod.fst) (pyLower x.tag) 1 (dicts.length + 1),
            Val.str t)]).map Prod.fst)).Nodup := by
        rw [List.map_append]
        exact nodup_append_singleton hnd (by simpa using hfresh)
      rcases ih _ hnd2 with ⟨h1, h2⟩
      constructor
      · simpa only [_xml_to_dict_go, hx] using h1
      · rw [show _xml_to_dict_go (XmlForest.cons x xs) dicts
            = _xml_to_dict_go xs (dicts ++
              [(uniqueKey (dicts.map Prod.fst) (pyLower x.tag) 1 (dicts.length + 1),
                Val.str t)]) by simp only [_xml_to_dict_go, hx]]
        rw [h2]
        simp [XmlForest.toList, childVal, hx]

/-! ## Claim theorems -/

/-- C1, counterexample: three sibling `<A>` children flatten to the keys
`a`, `a1`, `a12` — not the keys `a`, `a1`, `a2` the claim prescribes for
the third sibling, because the suffixing loop accumulates into the
candidate key rather than re-suffixing the bare tag. -/
theorem C1_counterexample :
    (_xml_to_dict (XmlElem.mk "ROOT" Option.none (XmlForest.ofList
        [XmlElem.mk "A" (some "x") XmlForest.nil,
         XmlElem.mk "A" (some "y") XmlForest.nil,
         XmlElem.mk "A" (some "z") XmlForest.nil]))).map Prod.fst
      = ["a", "a1", "a12"]
    ∧ ¬ ((_xml_to_dict (XmlElem.mk "ROOT" Option.none (XmlForest.ofList
        [XmlElem.mk "A" (some "x") XmlForest.nil,
         XmlElem.mk "A" (some "y") XmlForest.nil,
         XmlElem.mk "A" (some "z") XmlForest.nil]))).map Prod.fst
      = ["a", "a1", "a2"]) := by
  constructor
  · decide
  · decide

/-- C1, amended: flattening an element whose children are `K` siblings with
the same tag yields `K` pairwise distinct keys in sibling order, namely the
cumulative sequence `cumulKeys`: the bare lower-cased tag for the first
sibling, and each later sibling's key obtained from the previous sibling's
key by appending the next index (`tag`, `tag1`, `tag12`, `tag123`, ...). -/
theorem C1_theorem (rt tg txt : String) (rx : Option String) (K : Nat) :
    (_xml_to_dict (XmlElem.mk rt rx
        (replicateForest K (XmlElem.mk tg (some txt) XmlForest.nil)))).map Prod.fst
      = cumulKeys (pyLower tg) K
    ∧ (cumulKeys (pyLower tg) K).Nodup := by
  have h : _xml_to_dict_go (replicateForest K (XmlElem.mk tg (some txt) XmlForest.nil)) []
      = (cumulKeys (pyLower tg) K).map (fun k => (k, Val.str txt)) := by
    have h0 := go_replicate tg txt K 0
    rw [Nat.zero_add] at h0
    exact h0
  constructor
  · show (_xml_to_dict_go
        (replicateForest K (XmlElem.mk tg (some txt) XmlForest.nil)) []).map Prod.fst = _
    rw [h, List.map_map]
    exact List.map_id _
  · exact cumulKeys_nodup _ _

/-- C6: every child of an element contributes exactly one entry to the
flattened mapping — the mapping has one entry per child, its keys are
pairwise distinct even for duplicate sibling tags — and, in child order,
the stored value is the child's text when it has text, and the recursive
flattening of the child otherwise. -/
theorem C6_theorem (x : XmlElem) :
    (_xml_to_dict x).length = x.children.toList.length
    ∧ ((_xml_to_dict x).map Prod.fst).Nodup
    ∧ (_xml_to_dict x).map Prod.snd = x.children.toList.map childVal := by
  rcases x with ⟨tg, tx, cs⟩
  rcases xml_to_dict_go_spec cs [] (by simp) with ⟨h1, h2⟩
  refine ⟨?_, h1, ?_⟩
  · have hl := congrArg List.length h2
    simpa using hl
  · simpa using h2

/-- C7: every resource lister — images, locations/hosts, VMs (both the
flattened `_list_vms` and both modes of `_list_nodes`), templates, security
groups, virtual networks — returns the empty mapping, and no error, when
the pool response contains zero elements. -/
theorem C7_theorem (tg : String) (tx : Option String) :
    _list_images (XmlElem.mk tg tx XmlForest.nil) = .ok []
    ∧ _list_security_groups (XmlElem.mk tg tx XmlForest.nil) = .ok []
    ∧ _list_templates (XmlElem.mk tg tx XmlForest.nil) = .ok []
    ∧ _list_vns (XmlElem.mk tg tx XmlForest.nil) = .ok []
    ∧ _list_vms (XmlElem.mk tg tx XmlForest.nil) = .ok []
    ∧ avail_locations (XmlElem.mk tg tx XmlForest.nil) = .ok []
    ∧ _list_nodes false (XmlElem.mk tg tx XmlForest.nil) = .ok []
    ∧ _list_nodes true (XmlElem.mk tg tx XmlForest.nil) = .ok [] :=
  ⟨rfl, rfl, rfl, rfl, rfl, rfl, rfl, rfl⟩

/-- When every lister attempt succeeds but never contains the name, the
retry loop runs all its iterations, making one lister call and one
0.5-unit sleep per iteration, and returns the empty record. -/
lemma retryLoop_misses (lister : Nat → Except Err (List (Option String × Val)))
    (name : String)
    (h : ∀ j, ∃ pool, lister j = .ok pool ∧ lookupO pool (some name) = Option.none) :
    ∀ (n k : Nat), retryLoop lister name k n = ⟨.ok (Val.dict []), n, n * sleepDelay⟩ := by
  intro n
  induction n with
  | zero =>
    intro k
    show (⟨.ok (Val.dict []), 0, 0⟩ : LookupOutcome) = _
    congr 1
    simp
  | succ m ih =>
    intro k
    obtain ⟨pool, hp, hl⟩ := h k
    simp only [retryLoop, hp, hl, ih (k + 1)]
    congr 1
    push_cast
    ring

/-- C2 (amended): for a name absent from the pool on every attempt,
`_get_node` and `_get_template` perform exactly **11** lister attempts (the
loop `attempts = 10; while attempts >= 0` runs for attempts = 10, 9, ..., 0),
sleep 0.5 time units after each failed attempt — 11 sleeps, also after the
final attempt — and then return an empty record rather than raising. -/
theorem C2_theorem (vmPools templatePools : Nat → XmlElem) (name : String)
    (hvm : ∀ j, ∃ pool, _list_nodes true (vmPools j) = .ok pool
      ∧ lookupO pool (some name) = Option.none)
    (htp : ∀ j, ∃ pool, _list_templates (templatePools j) = .ok pool
      ∧ lookupO pool (some name) = Option.none) :
    _get_node vmPools name = ⟨.ok (Val.dict []), 11, 11 * sleepDelay⟩
    ∧ _get_template templatePools name = ⟨.ok (Val.dict []), 11, 11 * sleepDelay⟩ := by
  constructor
  · have h := retryLoop_misses (fun k => _list_nodes true (vmPools k)) name hvm 11 0
    simpa [_get_node] using h
  · have h := retryLoop_misses (fun k => _list_templates (templatePools k)) name htp 11 0
    simpa [_get_template] using h

/-- C2, witness: both helpers applied to constant empty pools. -/
theorem C2_witness :
    _get_node (fun _ => emptyPool) "gone" = ⟨.ok (Val.dict []), 11, 11 * sleepDelay⟩
    ∧ _get_template (fun _ => emptyPool) "gone" = ⟨.ok (Val.dict []), 11, 11 * sleepDelay⟩ :=
  C2_theorem (fun _ => emptyPool) (fun _ => emptyPool) "gone"
    (fun _ => ⟨[], rfl, rfl⟩) (fun _ => ⟨[], rfl, rfl⟩)

/-- Any invocation of an update dispatcher whose `update_type` value is
neither `replace` nor `merge` stops with a `SaltCloudSystemExit` usage
error before any RPC call (whatever the call context and other
arguments). -/
lemma updateBody_reject (cm rm idArg act : String) (mk : Int → String → Int → Call)
    (callv : Option String) (kwargs : Kwargs) (env : UpdateEnv)
    (hbad : ∀ s, kwGet kwargs "update_type" = some s → s ≠ "replace" ∧ s ≠ "merge") :
    (∃ m, (updateBody cm rm idArg act mk callv kwargs env).1 = .error (.systemExit m))
    ∧ (updateBody cm rm idArg act mk callv kwargs env).2 = [] := by
  simp only [updateBody]
  by_cases hc : callv = some "function"
  · rw [if_neg (by simp [hc])]
    by_cases htr : (truthy (kwGet kwargs idArg) = true ∧ truthy (kwGet kwargs "path") = true
        ∧ truthy (kwGet kwargs "update_type") = true)
    · rw [if_neg (not_not_intro htr)]
      cases hut : kwGet kwargs "update_type" with
      | none => rw [hut] at htr; simp [truthy] at htr
      | some s =>
        rcases hbad s hut with ⟨h1, h2⟩
        rw [if_neg (by simp [h1]), if_neg (by simp [h2])]
        exact ⟨⟨_, rfl⟩, rfl⟩
    · rw [if_pos (by simpa using htr)]
      exact ⟨⟨_, rfl⟩, rfl⟩
  · rw [if_pos (by simp [hc])]
    exact ⟨⟨_, rfl⟩, rfl⟩

/-- A valid `function`-context update invocation with mode `replace` or
`merge` issues exactly the one update RPC, with provider code 0 or 1
respectively, and echoes the provider's reply tuple. -/
lemma updateBody_rpc (cm rm act : String) (idArg : String)
    (mk : Int → String → Int → Call) (env : UpdateEnv)
    (idS pathS fdata ut : String) (i num : Int)
    (hA : idArg ≠ "path") (hB : idArg ≠ "update_type")
    (hnum : (ut = "replace" ∧ num = 0) ∨ (ut = "merge" ∧ num = 1))
    (hid : idS ≠ "") (hpath : pathS ≠ "")
    (hi : pyInt idS = .ok i) (hf : env.readFile pathS = .ok fdata) :
    updateBody cm rm idArg act mk (some "function") (mkUpdateKw idArg idS pathS ut) env
      = (.ok ⟨act, env.updateResp.1, env.updateResp.2.1, env.updateResp.2.2⟩,
         [mk i fdata num]) := by
  have hgid : kwGet (mkUpdateKw idArg idS pathS ut) idArg = some idS := by
    simp [mkUpdateKw, kwGet, lookupStr]
  have hgpath : kwGet (mkUpdateKw idArg idS pathS ut) "path" = some pathS := by
    simp [mkUpdateKw, kwGet, lookupStr, hA]
  have hgut : kwGet (mkUpdateKw idArg idS pathS ut) "update_type" = some ut := by
    simp [mkUpdateKw, kwGet, lookupStr, hB]
  have hutt : ut ≠ "" := by
    rcases hnum with ⟨rfl, _⟩ | ⟨rfl, _⟩ <;> decide
  simp only [updateBody, hgid, hgpath, hgut]
  rw [if_neg (by simp)]
  rw [if_neg (by simp [truthy, hid, hpath, hutt])]
  rcases hnum with ⟨rfl, rfl⟩ | ⟨rfl, rfl⟩
  · rw [if_pos rfl]
    simp [pyStr, hf, hi]
  · rw [if_neg (by simp), if_pos rfl]
    simp [pyStr, hf, hi]

/-- C5: for each of `image_update`, `template_update`, `secgroup_update`:
an `update_type` value other than the literals `replace` and `merge`
(including an absent or empty one) yields a `SaltCloudSystemExit` usage
error with no RPC issued, whatever the call context; and in a valid
invocation, `replace` is mapped to provider integer code 0 and `merge` to
code 1 in the single update RPC that is issued. -/
theorem C5_theorem (env : UpdateEnv) (callv : Option String) (kwB : Kwargs)
    (idS pathS fdata : String) (i : Int)
    (hbad : ∀ s, kwGet kwB "update_type" = some s → s ≠ "replace" ∧ s ≠ "merge")
    (hid : idS ≠ "") (hpath : pathS ≠ "")
    (hi : pyInt idS = .ok i) (hf : env.readFile pathS = .ok fdata) :
    ((∃ m, (image_update callv kwB env).1 = .error (.systemExit m))
      ∧ (image_update callv kwB env).2 = [])
    ∧ ((∃ m, (template_update callv kwB env).1 = .error (.systemExit m))
      ∧ (template_update callv kwB env).2 = [])
    ∧ ((∃ m, (secgroup_update callv kwB env).1 = .error (.systemExit m))
      ∧ (secgroup_update callv kwB env).2 = [])
    ∧ image_update (some "function") (mkUpdateKw "image_id" idS pathS "replace") env
        = (.ok ⟨"image.update", env.updateResp.1, env.updateResp.2.1, env.updateResp.2.2⟩,
           [Call.imageUpdate i fdata 0])
    ∧ image_update (some "function") (mkUpdateKw "image_id" idS pathS "merge") env
        = (.ok ⟨"image.update", env.updateResp.1, env.updateResp.2.1, env.updateResp.2.2⟩,
           [Call.imageUpdate i fdata 1])
    ∧ template_update (some "function") (mkUpdateKw "template_id" idS pathS "replace") env
        = (.ok ⟨"template.update", env.updateResp.1, env.updateResp.2.1, env.updateResp.2.2⟩,
           [Call.templateUpdateRpc i fdata 0])
    ∧ template_update (some "function") (mkUpdateKw "template_id" idS pathS "merge") env
        = (.ok ⟨"template.update", env.updateResp.1, env.updateResp.2.1, env.updateResp.2.2⟩,
           [Call.templateUpdateRpc i fdata 1])
    ∧ secgroup_update (some "function") (mkUpdateKw "secgroup_id" idS pathS "replace") env
        = (.ok ⟨"secgroup.update", env.updateResp.1, env.updateResp.2.1, env.updateResp.2.2⟩,
           [Call.secgroupUpdateRpc i fdata 0])
    ∧ secgroup_update (some "function") (mkUpdateKw "secgroup_id" idS pathS "merge") env
        = (.ok ⟨"secgroup.update", env.updateResp.1, env.updateResp.2.1, env.updateResp.2.2⟩,
           [Call.secgroupUpdateRpc i fdata 1]) := by
  refine ⟨updateBody_reject _ _ _ _ _ _ _ _ hbad,
    updateBody_reject _ _ _ _ _ _ _ _ hbad,
    updateBody_reject _ _ _ _ _ _ _ _ hbad,
    updateBody_rpc _ _ _ _ _ _ _ _ _ _ _ _ (by decide) (by decide)
      (Or.inl ⟨rfl, rfl⟩) hid hpath hi hf,
    updateBody_rpc _ _ _ _ _ _ _ _ _ _ _ _ (by decide) (by decide)
      (Or.inr ⟨rfl, rfl⟩) hid hpath hi hf,
    updateBody_rpc _ _ _ _ _ _ _ _ _ _ _ _ (by decide) (by decide)
      (Or.inl ⟨rfl, rfl⟩) hid hpath hi hf,
    updateBody_rpc _ _ _ _ _ _ _ _ _ _ _ _ (by decide) (by decide)
      (Or.inr ⟨rfl, rfl⟩) hid hpath hi hf,
    updateBody_rpc _ _ _ _ _ _ _ _ _ _ _ _ (by decide) (by decide)
      (Or.inl ⟨rfl, rfl⟩) hid hpath hi hf,
    updateBody_rpc _ _ _ _ _ _ _ _ _ _ _ _ (by decide) (by decide)
      (Or.inr ⟨rfl, rfl⟩) hid hpath hi hf⟩

/-- C5, witness: a rejected invocation (`update_type=bogus`) and the six
accepted invocations at concrete arguments. -/
theorem C5_witness :
    ((∃ m, (image_update (some "function") (some [("update_type", "bogus")]) updateEnvW).1
        = .error (.systemExit m))
      ∧ (image_update (some "function") (some [("update_type", "bogus")]) updateEnvW).2 = [])
    ∧ ((∃ m, (template_update (some "function") (some [("update_type", "bogus")]) updateEnvW).1
        = .error (.systemExit m))
      ∧ (template_update (some "function") (some [("update_type", "bogus")]) updateEnvW).2 = [])
    ∧ ((∃ m, (secgroup_update (some "function") (some [("update_type", "bogus")]) updateEnvW).1
        = .error (.systemExit m))
      ∧ (secgroup_update (some "function") (some [("update_type", "bogus")]) updateEnvW).2 = [])
    ∧ image_update (some "function") (mkUpdateKw "image_id" "7" "/tmp/upd.txt" "replace")
          updateEnvW
        = (.ok ⟨"image.update", true, 7, 0⟩, [Call.imageUpdate 7 "DATA" 0])
    ∧ image_update (some "function") (mkUpdateKw "image_id" "7" "/tmp/upd.txt" "merge")
          updateEnvW
        = (.ok ⟨"image.update", true, 7, 0⟩, [Call.imageUpdate 7 "DATA" 1])
    ∧ template_update (some "function") (mkUpdateKw "template_id" "7" "/tmp/upd.txt" "replace")
          updateEnvW
        = (.ok ⟨"template.update", true, 7, 0⟩, [Call.templateUpdateRpc 7 "DATA" 0])
    ∧ template_update (some "function") (mkUpdateKw "template_id" "7" "/tmp/upd.txt" "merge")
          updateEnvW
        = (.ok ⟨"template.update", true, 7, 0⟩, [Call.templateUpdateRpc 7 "DATA" 1])
    ∧ secgroup_update (some "function") (mkUpdateKw "secgroup_id" "7" "/tmp/upd.txt" "replace")
          updateEnvW
        = (.ok ⟨"secgroup.update", true, 7, 0⟩, [Call.secgroupUpdateRpc 7 "DATA" 0])
    ∧ secgroup_update (some "function") (mkUpdateKw "secgroup_id" "7" "/tmp/upd.txt" "merge")
          updateEnvW
        = (.ok ⟨"secgroup.update", true, 7, 0⟩, [Call.secgroupUpdateRpc 7 "DATA" 1]) :=
  C5_theorem updateEnvW (some "function") (some [("update_type", "bogus")])
    "7" "/tmp/upd.txt" "DATA" 7
    (fun s hs => by
      simp only [kwGet, lookupStr, if_true, Option.some.injEq] at hs
      subst hs
      exact ⟨by decide, by decide⟩)
    (by decide) (by decide) rfl rfl

/-- C10: with `name` absent from the kwargs (and outside the rejected
`action` context), `get_secgroup_id` does not raise the descriptive
`requires a name` usage error — it calls the security-group lister and then
fails with a bare `KeyError` on the missing key — whereas `get_image_id`,
`get_template_id`, `get_vm_id` and `get_vn_id` all raise their descriptive
`requires a name` error without calling any lister.  (The `KeyError`
conclusion presumes, as the claim does, that the pool holds no record keyed
by an absent `NAME` text.) -/
theorem C10_theorem (kwargs : Kwargs) (callv : Option String)
    (secPool imgPool vmPool vnPool : XmlElem) (tplPools : Nat → XmlElem)
    (groups : List (Option String × Val))
    (hname : kwGet kwargs "name" = Option.none)
    (hcall : callv ≠ some "action")
    (hsec : _list_security_groups secPool = .ok groups)
    (hnone : lookupO groups Option.none = Option.none) :
    (get_secgroup_id kwargs callv secPool).1 = .error .keyError
    ∧ (get_secgroup_id kwargs callv secPool).2 = [Call.secgrouppoolInfo]
    ∧ get_image_id kwargs callv imgPool
        = (.error (.systemExit "The get_image_id function requires a name."), [])
    ∧ get_template_id kwargs callv tplPools
        = (.error (.systemExit "The get_template_id function requires a name."), [])
    ∧ get_vm_id kwargs callv vmPool
        = (.error (.systemExit "The get_vm_id function requires a name."), [])
    ∧ get_vn_id kwargs callv vnPool
        = (.error (.systemExit "The get_vn_id function requires a name."), []) := by
  refine ⟨?_, ?_, ?_, ?_, ?_, ?_⟩ <;>
    simp [get_secgroup_id, get_image_id, get_template_id, get_vm_id, get_vn_id,
      hcall, hname, hsec, hnone]

/-- C10, witness: empty kwargs against empty pools. -/
theorem C10_witness :
    (get_secgroup_id (some []) Option.none emptyPool).1 = .error .keyError
    ∧ (get_secgroup_id (some []) Option.none emptyPool).2 = [Call.secgrouppoolInfo]
    ∧ get_image_id (some []) Option.none emptyPool
        = (.error (.systemExit "The get_image_id function requires a name."), [])
    ∧ get_template_id (some []) Option.none (fun _ => emptyPool)
        = (.error (.systemExit "The get_template_id function requires a name."), [])
    ∧ get_vm_id (some []) Option.none emptyPool
        = (.error (.systemExit "The get_vm_id function requires a name."), [])
    ∧ get_vn_id (some []) Option.none emptyPool
        = (.error (.systemExit "The get_vn_id function requires a name."), []) :=
  C10_theorem (some []) Option.none emptyPool emptyPool emptyPool emptyPool
    (fun _ => emptyPool) [] rfl (by decide) rfl rfl

/-- C4: when the bounded-retry lookup resolves the VM's name to a record
(whose `id` field parses as an integer), `destroy` issues exactly one
`one.vm.action` delete RPC keyed by that integer id, and returns a record
whose `deleted` / `node_id` / `error_code` fields echo the provider's
`(flag, id, error-code)` reply tuple verbatim. -/
theorem C4_theorem (name : String) (callv : Option String) (env : DestroyEnv)
    (data : Val) (ids : String) (i : Int)
    (hcall : callv ≠ some "function")
    (hres : (_get_node env.vmPools name).result = .ok data)
    (hid : getItem data "id" = .ok (Val.str ids))
    (hi : pyInt ids = .ok i) :
    (destroy name callv env).1
      = .ok ⟨"vm.delete", env.actionResp.1, env.actionResp.2.1, env.actionResp.2.2⟩
    ∧ (destroy name callv env).2.filter Call.isVmActionCall = [Call.vmAction "delete" i] := by
  have hshow : show_instance env.vmPools name (some "action")
      = (.ok data, [Call.cacheNode name]) := by
    simp [show_instance, hres]
  cases henv : env.updateCachedir <;>
    simp [destroy, hcall, hshow, hid, pyIntOfVal, hi, henv, Call.isVmActionCall,
      List.filter_append]

/-- C4, witness: destroying the resolvable VM `web` (id 12) with provider
reply `(true, 12, 0)`. -/
theorem C4_witness :
    (destroy "web" (some "action") destroyEnvW).1 = .ok ⟨"vm.delete", true, 12, 0⟩
    ∧ (destroy "web" (some "action") destroyEnvW).2.filter Call.isVmActionCall
        = [Call.vmAction "delete" 12] :=
  C4_theorem "web" (some "action") destroyEnvW (Val.dict (_xml_to_dict vmElemReady)) "12" 12
    (by decide) rfl rfl rfl

/-- Whatever branch `destroy` takes, its trace contains no instantiate
RPC. -/
lemma destroy_no_instantiate (name : String) (callv : Option String) (env : DestroyEnv) :
    (destroy name callv env).2.filter Call.isInstantiate = [] := by
  by_cases hc : callv = some "function"
  · simp [destroy, hc]
  · cases hr : (_get_node env.vmPools name).result with
    | error e => simp [destroy, hc, show_instance, hr, Call.isInstantiate]
    | ok node =>
      cases hid : getItem node "id" with
      | error e => simp [destroy, hc, show_instance, hr, hid, Call.isInstantiate]
      | ok idv =>
        cases hiv : pyIntOfVal idv with
        | error e => simp [destroy, hc, show_instance, hr, hid, hiv, Call.isInstantiate]
        | ok i =>
          cases hu : env.updateCachedir <;>
            simp [destroy, hc, show_instance, hr, hid, hiv, hu, Call.isInstantiate]

/-- Outside the rejected `function` context, `destroy` always fires the
`destroying` event. -/
lemma destroy_fires_destroying (name : String) (env : DestroyEnv) :
    Call.fireEvent ("salt/cloud/" ++ name ++ "/destroying")
      ∈ (destroy name Option.none env).2 := by
  cases hr : (_get_node env.vmPools name).result with
  | error e => simp [destroy, show_instance, hr]
  | ok node =>
    cases hid : getItem node "id" with
    | error e => simp [destroy, show_instance, hr, hid]
    | ok idv =>
      cases hiv : pyIntOfVal idv with
      | error e => simp [destroy, show_instance, hr, hid, hiv]
      | ok i =>
        cases hu : env.updateCachedir <;>
          simp [destroy, show_instance, hr, hid, hiv, hu]

/-- The trace of the bootstrap tail is one of three concrete shapes. -/
lemma bootstrapRun_trace_cases (vm : VmSpec) (env : CreateEnv) (data : Val) :
    (createBootstrapRun vm env data).2 = []
    ∨ (createBootstrapRun vm env data).2 = [Call.bootstrap vm.name]
    ∨ (createBootstrapRun vm env data).2
        = [Call.bootstrap vm.name,
           Call.fireEvent ("salt/cloud/" ++ vm.name ++ "/created")] := by
  unfold createBootstrapRun
  repeat' split
  all_goals simp

/-- The bootstrap tail issues no instantiate RPC either. -/
lemma bootstrapRun_no_instantiate (vm : VmSpec) (env : CreateEnv) (data : Val) :
    (createBootstrapRun vm env data).2.filter Call.isInstantiate = [] := by
  rcases bootstrapRun_trace_cases vm env data with h | h | h <;>
    simp [h, Call.isInstantiate]

/-- The post-poll tail of `create` issues no instantiate RPC. -/
lemma bootstrapPhase_no_instantiate (vm : VmSpec) (env : CreateEnv) (data : Val) :
    (createBootstrapPhase vm env data).2.filter Call.isInstantiate = [] := by
  unfold createBootstrapPhase
  split
  · split
    · exact bootstrapRun_no_instantiate vm env data
    · simp
  · exact bootstrapRun_no_instantiate vm env data

/-- C8: every `create` run that reaches the instantiate step issues exactly
one `one.template.instantiate` RPC, with the resolved numeric image id, the
VM's name, the persist-template-changes flag fixed to `false`, and the
scheduler-requirement string naming the resolved location id when one was
resolved (`SCHED_REQUIREMENTS="ID=..."`), or the empty string when the
location constraint was unset. -/
theorem C8_theorem (vm : VmSpec) (env : CreateEnv) (imgV : Val) (loc : Option Val) (i : Int)
    (himg : get_image env.imagePool vm.image = .ok imgV)
    (hloc : get_location env.hostPool vm.location = .ok loc)
    (hi : pyIntOfVal imgV = .ok i) :
    (create vm env).2.filter Call.isInstantiate
      = [Call.templateInstantiate i vm.name false (schedRequirements loc)] := by
  simp only [create, himg, hloc, hi]
  cases hrsp : env.instantiateResp with
  | error e => simp [Call.isInstantiate]
  | ok u =>
    cases hw : waitForIp (fun j => queryNodeData (env.pollPools j) vm.name) 0
        (env.waitTimeout / env.waitInterval) with
    | ok data =>
      simp [List.filter_append, Call.isInstantiate, bootstrapPhase_no_instantiate]
    | error e =>
      cases e <;>
        simp [List.filter_append, Call.isInstantiate, destroy_no_instantiate]

/-- C8, witness: the concrete run instantiates image 3 as `web` with the
empty scheduler requirement. -/
theorem C8_witness :
    (create vmW envW3).2.filter Call.isInstantiate
      = [Call.templateInstantiate 3 "web" false (schedRequirements Option.none)] :=
  C8_theorem vmW envW3 (Val.str "3") Option.none 3 rfl rfl rfl

/-- C3: when the readiness poll ends in a timeout or a poll-detected
failure, `create` attempts a destroy of the just-created VM (the
`destroying` event is fired; whatever the destroy raises — in particular
its already-gone `SaltCloudSystemExit` — is superseded by the
`finally: raise`), and surfaces a `SaltCloudSystemExit` carrying the
original timeout/failure message instead of returning a success result. -/
theorem C3_theorem (vm : VmSpec) (env : CreateEnv) (imgV : Val) (loc : Option Val) (i : Int)
    (e : Err) (m : String)
    (himg : get_image env.imagePool vm.image = .ok imgV)
    (hloc : get_location env.hostPool vm.location = .ok loc)
    (hi : pyIntOfVal imgV = .ok i)
    (hrsp : env.instantiateResp = .ok ())
    (hw : waitForIp (fun j => queryNodeData (env.pollPools j) vm.name) 0
        (env.waitTimeout / env.waitInterval) = .error e)
    (he : e = .executionTimeout m ∨ e = .executionFailure m) :
    (create vm env).1 = .error (.systemExit m)
    ∧ Call.fireEvent ("salt/cloud/" ++ vm.name ++ "/destroying") ∈ (create vm env).2
    ∧ ∀ r, (create vm env).1 ≠ .ok r := by
  have hmem := destroy_fires_destroying vm.name env.destroyEnv
  rcases he with rfl | rfl <;>
    refine ⟨by simp [create, himg, hloc, hi, hrsp, hw], ?_, ?_⟩ <;>
    simp only [create, himg, hloc, hi, hrsp, hw]
  · exact List.mem_append_right _ hmem
  · intro r; simp
  · exact List.mem_append_right _ hmem
  · intro r; simp

/-- C3, witness: the poll sees the `failed` lifecycle state on attempt 1;
`create` fires the destroy path and errors out. -/
theorem C3_witness :
    (create vmW envW3).1 = .error (.systemExit "Failed to obtain the node data.")
    ∧ Call.fireEvent "salt/cloud/web/destroying" ∈ (create vmW envW3).2
    ∧ ∀ r, (create vmW envW3).1 ≠ .ok r :=
  C3_theorem vmW envW3 (Val.str "3") Option.none 3
    (.executionFailure "Failed to obtain the node data.") "Failed to obtain the node data."
    rfl rfl rfl rfl rfl (Or.inr rfl)

/-- C9: when the poll succeeds but the configured `private_key` path is not
a file on disk, `create` raises a `SaltCloudConfigError` naming the key
file, and no bootstrap handoff occurs. -/
theorem C9_theorem (vm : VmSpec) (env : CreateEnv) (imgV : Val) (loc : Option Val) (i : Int)
    (data : Val) (kf : String)
    (himg : get_image env.imagePool vm.image = .ok imgV)
    (hloc : get_location env.hostPool vm.location = .ok loc)
    (hi : pyIntOfVal imgV = .ok i)
    (hrsp : env.instantiateResp = .ok ())
    (hw : waitForIp (fun j => queryNodeData (env.pollPools j) vm.name) 0
        (env.waitTimeout / env.waitInterval) = .ok data)
    (hkf : vm.private_key = some kf)
    (hfs : kf ∉ env.files) :
    (create vm env).1 = .error (.configError
      ("The defined key_filename " ++ pyRepr kf ++ " does not exist"))
    ∧ (create vm env).2.filter Call.isBootstrapCall = [] := by
  simp only [create, himg, hloc, hi, hrsp, hw, createBootstrapPhase, hkf]
  rw [if_neg hfs]
  exact ⟨rfl, by simp [Call.isBootstrapCall]⟩

/-- C9, witness: the poll succeeds on attempt 1, but the configured key
file `/root/no-such-key` is absent; `create` raises the config error and
never bootstraps. -/
theorem C9_witness :
    (create vmW9 envW9).1 = .error (.configError
      ("The defined key_filename " ++ pyRepr "/root/no-such-key" ++ " does not exist"))
    ∧ (create vmW9 envW9).2.filter Call.isBootstrapCall = [] :=
  C9_theorem vmW9 envW9 (Val.str "3") Option.none 3
    (Val.dict (_xml_to_dict vmElemReady)) "/root/no-such-key"
    rfl rfl rfl rfl rfl rfl (by decide)

/-- C2, counterexample: for a name that is never present, both helpers make
11 lister attempts, not the 10 the claim states. -/
theorem C2_counterexample :
    (_get_node (fun _ => emptyPool) "web").calls = 11
    ∧ ¬ ((_get_node (fun _ => emptyPool) "web").calls = 10)
    ∧ (_get_template (fun _ => emptyPool) "web").calls = 11
    ∧ ¬ ((_get_template (fun _ => emptyPool) "web").calls = 10) := by
  refine ⟨by decide, by decide, by decide, by decide⟩

end Opennebula
